import Mathlib

/-!
Verification of the state-transition engine of a tiling window manager
(src/src/window_manager.rs).

The engine owns an immutable Workspace Model and, on every operation,
issues imperative commands to a display backend.  We embed the model as
plain Lean structures and every engine operation as a pure function that
returns the new `WindowManager` state together with the ordered list of
backend commands it issues (`List Cmd`).  The backend object itself
(`WindowSystem`) only ever supplies the monitor geometry list, so
operations that read it take a `List Rectangle` argument instead.

Machine integers (`u32`, window handles, colors) are embedded as `Nat`;
the `u32` subtractions in the layout arithmetic are embedded as truncated
`Nat` subtraction (no claim exercises an underflow).

The repository modules `core` (Stack / Workspace / Workspaces), `layout`
(LayoutManager) and `window_system` are not under src/; their operations
are modelled from the spec where required and carry a
doc comment saying so.
-/

abbrev Window := Nat

abbrev Color := Nat

/-- Rectangle(x, y, width, height): integer geometry for monitors and
window placement. -/
structure Rectangle where
  x : Nat
  y : Nat
  width : Nat
  height : Nat
deriving Repr, DecidableEq

/-- Modelled from the spec: the focus-ordered window stack of one
workspace (missing module core).  It has a distinguished focused
element with the windows above it (nearest first) and below it. -/
structure Stack where
  focus : Window
  up : List Window
  down : List Window
deriving Repr, DecidableEq

/-- Modelled from the spec: the full-order projection of a stack
(missing module core). -/
def Stack.integrate (s : Stack) : List Window :=
  s.up.reverse ++ s.focus :: s.down

/-- Workspace: numeric id (used by view), user-facing tag, layout
identifier, and optional stack (missing module core; fields per the
spec data model and the uses in src). -/
structure Workspace where
  id : Nat
  tag : String
  layout : String
  stack : Option Stack
deriving Repr, DecidableEq

/-- Screen: a monitor geometry bound to the workspace it displays
(missing module core; `Screen::new(workspace, screen_id, screen_detail)`
is the constructor order used by rescreen). -/
structure Screen where
  workspace : Workspace
  screen_id : Nat
  screen_detail : Rectangle
deriving Repr, DecidableEq

/-- The Workspace Model: one current screen, the other visible screens,
and the hidden workspaces (missing module core; fields per the spec
data model and the field accesses in src). -/
structure Workspaces where
  current : Screen
  visible : List Screen
  hidden : List Workspace
deriving Repr, DecidableEq

/-- Modelled from the spec: ordered screen enumeration (missing module
core), current first. -/
def Workspaces.screens (self : Workspaces) : List Screen :=
  self.current :: self.visible

/-- Modelled from the spec: all workspaces in priority order — current,
visible, hidden (missing module core). -/
def Workspaces.workspacesList (self : Workspaces) : List Workspace :=
  self.screens.map Screen.workspace ++ self.hidden

/-- Modelled from the spec: workspace count (missing module core). -/
def Workspaces.number_workspaces (self : Workspaces) : Nat :=
  self.workspacesList.length

/-- Modelled from the spec: the current workspace's focused window, if
any (missing module core). -/
def Workspaces.peek (self : Workspaces) : Option Window :=
  self.current.workspace.stack.map Stack.focus

/-- Modelled from the spec: membership test — does any workspace's stack
hold the window (missing module core). -/
def Workspaces.contains (self : Workspaces) (w : Window) : Bool :=
  self.workspacesList.any (fun ws =>
    match ws.stack with
    | some st => st.integrate.contains w
    | none => false)

/-- Modelled from the spec: all managed windows (missing module core). -/
def Workspaces.all_windows (self : Workspaces) : List Window :=
  self.workspacesList.bind (fun ws =>
    match ws.stack with
    | some st => st.integrate
    | none => [])

def Workspaces.modifyCurrentStack (self : Workspaces)
    (f : Option Stack → Option Stack) : Workspaces :=
  { self with current := { self.current with workspace :=
      { self.current.workspace with stack := f self.current.workspace.stack } } }

/-- Modelled from the spec: insertion near focus — the new window becomes
the focused element of the stack, the old focus moves just below it. -/
def stackInsertUp (w : Window) : Option Stack → Option Stack
  | none => some ⟨w, [], []⟩
  | some st => some ⟨w, st.up, st.focus :: st.down⟩

/-- Modelled from the spec: deletion with deterministic focus transfer
to a neighbour — the element below the deleted focus, else the one
above it. -/
def stackDelete (w : Window) : Option Stack → Option Stack
  | none => none
  | some st =>
    if st.focus = w then
      match st.down with
      | d :: ds => some ⟨d, st.up, ds⟩
      | [] =>
        match st.up with
        | u :: us => some ⟨u, us, []⟩
        | [] => none
    else
      some ⟨st.focus, st.up.filter (fun v => v ≠ w), st.down.filter (fun v => v ≠ w)⟩

/-- Modelled from the spec: rotate focus to the next window, wrapping
around at the bottom of the stack (missing module core). -/
def stackFocusDown (st : Stack) : Stack :=
  match st.down with
  | r :: rs => ⟨r, st.focus :: st.up, rs⟩
  | [] =>
    match (st.focus :: st.up).reverse with
    | x :: xs => ⟨x, [], xs⟩
    | [] => st

/-- Modelled from the spec: `insert_up(window)` — no-op when the window
is already managed, otherwise insert it at the focus position of the
current workspace's stack (missing module core). -/
def Workspaces.insert_up (self : Workspaces) (w : Window) : Workspaces :=
  if self.contains w then self
  else self.modifyCurrentStack (stackInsertUp w)

/-- Apply `f` to every workspace whose id is `i`, wherever it lives. -/
def Workspaces.mapWorkspaceWithId (self : Workspaces) (i : Nat)
    (f : Workspace → Workspace) : Workspaces :=
  let g := fun (ws : Workspace) => if ws.id = i then f ws else ws
  { current := { self.current with workspace := g self.current.workspace },
    visible := self.visible.map (fun sc => { sc with workspace := g sc.workspace }),
    hidden := self.hidden.map g }

/-- Modelled from the spec: `delete(window)` removes the window from
whichever stack holds it (missing module core). -/
def Workspaces.delete (self : Workspaces) (w : Window) : Workspaces :=
  let g := fun (ws : Workspace) => { ws with stack := stackDelete w ws.stack }
  { current := { self.current with workspace := g self.current.workspace },
    visible := self.visible.map (fun sc => { sc with workspace := g sc.workspace }),
    hidden := self.hidden.map g }

/-- Modelled from the spec: `shift(index)` moves the current workspace's
focused window to workspace `index`; out-of-range index or missing
focus leaves the model unchanged (missing module core; §7 of the spec
requires the out-of-range case to leave the state unchanged). -/
def Workspaces.shift (self : Workspaces) (index : Nat) : Workspaces :=
  if index < self.number_workspaces then
    match self.peek with
    | some w =>
      (self.delete w).mapWorkspaceWithId index
        (fun ws => { ws with stack := stackInsertUp w ws.stack })
    | none => self
  else self

/-- Modelled from the spec: `view(index)` switches the current screen's
displayed workspace to the workspace with id `index`, swapping it with
whichever place (visible screen or hidden slot) held that workspace;
unknown ids leave the model unchanged (missing module core). -/
def Workspaces.view (self : Workspaces) (index : Nat) : Workspaces :=
  if self.current.workspace.id = index then self
  else
    match self.visible.find? (fun sc => sc.workspace.id = index) with
    | some sc =>
      { self with
        current := { self.current with workspace := sc.workspace },
        visible := self.visible.map (fun s =>
          if s.workspace.id = index then { s with workspace := self.current.workspace } else s) }
    | none =>
      match self.hidden.find? (fun ws => ws.id = index) with
      | some ws =>
        { self with
          current := { self.current with workspace := ws },
          hidden := self.hidden.map (fun v =>
            if v.id = index then self.current.workspace else v) }
      | none => self

/-- Modelled from the spec: `focus_down()` rotates the current
workspace's stack focus to the next window (missing module core). -/
def Workspaces.focus_down (self : Workspaces) : Workspaces :=
  self.modifyCurrentStack (Option.map stackFocusDown)

/-- Modelled from the spec: construction — one workspace per tag
(default layout, ids 0..), the first N tags on screens 0..N-1 with the
backend's geometries, the remaining tags hidden (missing module core;
fails when there is no screen or no tag). -/
def Workspaces.new (layout : String) (tags : List String)
    (screen_infos : List Rectangle) : Option Workspaces :=
  let wss := (tags.enumFrom 0).map (fun p => Workspace.mk p.1 p.2 layout none)
  let seen := wss.take screen_infos.length
  let sc := List.zipWith (fun (p : Nat × Workspace) r => Screen.mk p.2 p.1 r)
    (seen.enumFrom 0) screen_infos
  match sc with
  | [] => none
  | c :: vs => some ⟨c, vs, wss.drop screen_infos.length⟩

/-- The rectangles a Tall-style layout assigns to `n` windows inside
`r`: a single window fills the whole rectangle, otherwise the first
(master) window takes the left half and the rest stack in the right
half.  Modelled from the spec: the Layout Engine is an external
contract (missing module layout); the spec fixes only that the
placements cover exactly the stack's windows, are deterministic, and
that a single window fills the given rectangle (§8 scenario). -/
def tileRects (r : Rectangle) (n : Nat) : List Rectangle :=
  match n with
  | 0 => []
  | 1 => [r]
  | Nat.succ m =>
    let mw := r.width / 2
    let colRect := Rectangle.mk (r.x + mw) r.y (r.width - mw) r.height
    let rh := r.height / m
    Rectangle.mk r.x r.y mw r.height ::
      (List.range m).map (fun i => Rectangle.mk colRect.x (colRect.y + i * rh) colRect.width rh)

/-- Modelled from the spec: `LayoutManager::get_layout(name).apply_layout
(rect, stack)` — an ordered list of (window, rectangle) placements
covering exactly the windows of the stack (missing module layout). -/
def LayoutManager.apply_layout (_layoutName : String) (r : Rectangle)
    (stack : Option Stack) : List (Window × Rectangle) :=
  match stack with
  | none => []
  | some st => st.integrate.zip (tileRects r st.integrate.length)

/-- One imperative display-backend command, in the order the engine
issues them (missing module window_system; the constructors mirror the
WindowSystem methods called from src). -/
inductive Cmd where
  | show (w : Window) : Cmd
  | hide (w : Window) : Cmd
  | resize (w : Window) (width height : Nat) : Cmd
  | move (w : Window) (x y : Nat) : Cmd
  | setBorderWidth (w : Window) (bw : Nat) : Cmd
  | setBorderColor (w : Window) (c : Color) : Cmd
  | focusWin (w : Window) : Cmd
  | flush : Cmd
deriving Repr, DecidableEq

/-- The configuration value handed to every operation (missing module
config; fields per §6 of the spec and the accesses in src).  The
manage-hook receives the candidate model and the new window. -/
structure Config where
  tags : List String
  border_width : Nat
  border_color : Color
  focus_border_color : Color
  manage_hook : Workspaces → Window → Workspaces

/-- The engine state: a single immutable value wrapping a Workspace
Model. -/
structure WindowManager where
  workspaces : Workspaces
deriving Repr, DecidableEq

def WindowManager.is_window_managed (self : WindowManager) (window : Window) : Bool :=
  self.workspaces.contains window

def WindowManager.modify_workspaces (self : WindowManager)
    (f : Workspaces → Workspaces) : WindowManager :=
  { self with workspaces := f self.workspaces }

/-- The 20-unit top inset reserved from a screen geometry before the
layout engine runs: Rectangle(x, y + 20, w, h - 20) in
reapply_layout. -/
def addTopInset (r : Rectangle) : Rectangle :=
  Rectangle.mk r.x (r.y + 20) r.width (r.height - 20)

/-- The five commands reapply_layout issues for one placement
(win, Rectangle(x, y, w, h)): show, resize to
(w - border_width * 2, h - border_width * 2), move to (x, y), set
border width, set normal border color. -/
def placeCmds (config : Config) (p : Window × Rectangle) : List Cmd :=
  [Cmd.show p.1,
   Cmd.resize p.1 (p.2.width - config.border_width * 2) (p.2.height - config.border_width * 2),
   Cmd.move p.1 p.2.x p.2.y,
   Cmd.setBorderWidth p.1 config.border_width,
   Cmd.setBorderColor p.1 config.border_color]

/-- The hide commands issued inside the per-screen loop of
reapply_layout: unmap every window of every hidden workspace's stack. -/
def hiddenHideCmds (ws : Workspaces) : List Cmd :=
  ws.hidden.bind (fun workspace =>
    match workspace.stack with
    | some s => s.integrate.map Cmd.hide
    | none => [])

/-- The commands the body of reapply_layout's screen loop issues for one
screen: the hidden-workspace unmaps, then the placement commands for
the layout of this screen's workspace in its inset geometry. -/
def screenCmds (ws : Workspaces) (config : Config) (screen : Screen) : List Cmd :=
  let screen_space := addTopInset screen.screen_detail
  let window_layout :=
    LayoutManager.apply_layout screen.workspace.layout screen_space screen.workspace.stack
  hiddenHideCmds ws ++ window_layout.bind (placeCmds config)

/-- reapply_layout: for every screen run the screen loop body; then set
the focus border color on the focused window, if any; then flush.  The
model is returned unchanged (the Rust source returns self.clone()). -/
def WindowManager.reapply_layout (self : WindowManager) (config : Config) :
    WindowManager × List Cmd :=
  (self,
   self.workspaces.screens.bind (screenCmds self.workspaces config) ++
     (match self.workspaces.peek with
      | some focused_window => [Cmd.setBorderColor focused_window config.focus_border_color]
      | none => []) ++
     [Cmd.flush])

/-- The synchronization primitive `windows(transform)`: clear the old
focus border, apply the transform and reapply the layout, clear the
border on every previously visible window, then highlight and focus the
new focused window.  (The Rust source also computes a new_windows list
that it never uses; it is omitted here.) -/
def WindowManager.windows (self : WindowManager) (config : Config)
    (f : Workspaces → Workspaces) : WindowManager × List Cmd :=
  let old_visible : List Window :=
    ((self.workspaces.current :: self.workspaces.visible).filterMap
      (fun x => x.workspace.stack)).bind Stack.integrate
  let clearOld : List Cmd :=
    match self.workspaces.peek with
    | some win => [Cmd.setBorderColor win config.border_color]
    | none => []
  let step := (self.modify_workspaces f).reapply_layout config
  let clearVisible := old_visible.map (fun x => Cmd.setBorderColor x config.border_color)
  let focusCmds : List Cmd :=
    match step.1.workspaces.peek with
    | some focused_window =>
      [Cmd.setBorderColor focused_window config.focus_border_color,
       Cmd.focusWin focused_window]
    | none => []
  (step.1, clearOld ++ step.2 ++ clearVisible ++ focusCmds)

/-- view: switch to the workspace at `index`; out-of-bounds indices do
nothing and return (the Rust source returns self.clone() and issues no
command). -/
def WindowManager.view (self : WindowManager) (config : Config) (index : Nat) :
    WindowManager × List Cmd :=
  if index < self.workspaces.number_workspaces then
    self.windows config (fun w => w.view index)
  else (self, [])

def WindowManager.move_window_to_workspace (self : WindowManager) (config : Config)
    (index : Nat) : WindowManager × List Cmd :=
  self.windows config (fun w => w.shift index)

/-- rescreen: rebuild the screen list from the backend's reported
geometries.  `none` models the panic of `sc.head().unwrap()` on an
empty screen list.  Note the Rust source only overwrites `current` and
`visible`; `hidden` is left as it was. -/
def WindowManager.rescreen (self : WindowManager) (screen_infos : List Rectangle) :
    Option WindowManager :=
  let ws : List Workspace := self.workspaces.screens.map Screen.workspace ++ self.workspaces.hidden
  let xs : List Workspace := ws.take screen_infos.length
  let sc : List Screen :=
    List.zipWith (fun (p : Nat × Workspace) c => Screen.mk p.2 p.1 c)
      (xs.enumFrom 0) screen_infos
  match sc.head? with
  | none => none
  | some hd =>
    some (self.modify_workspaces (fun w =>
      { w with current := hd, visible := sc.drop 1 }))

/-- manage: insert the window near focus, run the configured
manage-hook on the candidate model, and route through the
synchronization primitive.  (No separate backend show is issued by the
Rust source.) -/
def WindowManager.manage (self : WindowManager) (window : Window) (config : Config) :
    WindowManager × List Cmd :=
  self.windows config (fun x => config.manage_hook (x.insert_up window) window)

/-- unmanage: delete a managed window through the synchronization
primitive, then reapply the layout once more; unmanaged windows are a
no-op. -/
def WindowManager.unmanage (self : WindowManager) (window : Window) (config : Config) :
    WindowManager × List Cmd :=
  if self.workspaces.contains window then
    let step := self.windows config (fun x => x.delete window)
    let relayout := step.1.reapply_layout config
    (relayout.1, step.2 ++ relayout.2)
  else (self, [])

/-- focus_down: rotate the current stack's focus; the Rust source
issues no backend command here (it bypasses the synchronization
primitive). -/
def WindowManager.focus_down (self : WindowManager) : WindowManager :=
  { self with workspaces := self.workspaces.focus_down }

/-- The border color a window ends up with after a command trace runs
against the backend, if any command in the trace set it. -/
def lastBorderColor (trace : List Cmd) (w : Window) : Option Color :=
  trace.foldl (fun acc c =>
    match c with
    | Cmd.setBorderColor v col => if v = w then some col else acc
    | _ => acc) none

/-! Concrete fixtures: the spec's §8 scenario — tags 1, 2, 3, a single
800×600 monitor, border width 2; plus configs whose manage-hook is the
identity, inserts an extra window, or shifts the new window away. -/

def g0 : Rectangle := ⟨0, 0, 800, 600⟩

def g1 : Rectangle := ⟨800, 0, 800, 600⟩

def cfg1 : Config := ⟨["1", "2", "3"], 2, 0, 1, fun ws _ => ws⟩

def cfgBad : Config := ⟨["1", "2", "3"], 2, 0, 1, fun ws _ => ws.insert_up 99⟩

def cfgShift : Config := ⟨["1", "2", "3"], 2, 0, 1, fun ws _ => ws.shift 1⟩

/-- The initial engine state for tags 1, 2, 3 on one 800×600 monitor. -/
def wm0 : WindowManager :=
  ⟨⟨⟨⟨0, "1", "Tall", none⟩, 0, g0⟩, [],
    [⟨1, "2", "Tall", none⟩, ⟨2, "3", "Tall", none⟩]⟩⟩

/-- wm0 with the single window 10 managed on the current workspace. -/
def wm1 : WindowManager :=
  ⟨⟨⟨⟨0, "1", "Tall", some ⟨10, [], []⟩⟩, 0, g0⟩, [],
    [⟨1, "2", "Tall", none⟩, ⟨2, "3", "Tall", none⟩]⟩⟩

/-- A single-tag, single-monitor state. -/
def wmOne : WindowManager := ⟨⟨⟨⟨0, "1", "Tall", none⟩, 0, g0⟩, [], []⟩⟩

def c1s1 : WindowManager := (wm0.manage 1 cfg1).1

def c1t1 : List Cmd := (wm0.manage 1 cfg1).2

def c1s2 : WindowManager := (c1s1.manage 2 cfg1).1

def c1t2 : List Cmd := (c1s1.manage 2 cfg1).2

def c1s3 : WindowManager := c1s2.focus_down

/-! Helper lemmas. -/

theorem tileRects_length (r : Rectangle) (n : Nat) : (tileRects r n).length = n := by
  match n with
  | 0 => rfl
  | 1 => rfl
  | Nat.succ (Nat.succ m) => simp [tileRects]

theorem apply_layout_map_fst (name : String) (r : Rectangle) (st : Stack) :
    (LayoutManager.apply_layout name r (some st)).map Prod.fst = st.integrate := by
  unfold LayoutManager.apply_layout
  exact List.map_fst_zip _ _ (by rw [tileRects_length])

theorem bind_sublist_of_mem {α β : Type} (f : α → List β) {l : List α} {a : α}
    (h : a ∈ l) : (f a).Sublist (l.bind f) := by
  induction l with
  | nil => cases h
  | cons b t ih =>
    rcases List.mem_cons.mp h with rfl | h'
    · exact List.sublist_append_left _ _
    · exact (ih h').trans (List.sublist_append_right _ _)

theorem zipWith_enumFrom_screens :
    ∀ (xs : List Workspace) (g : List Rectangle) (n : Nat), xs.length = g.length →
    (List.zipWith (fun (p : Nat × Workspace) c => Screen.mk p.2 p.1 c) (xs.enumFrom n) g).map
        Screen.workspace = xs ∧
    (List.zipWith (fun (p : Nat × Workspace) c => Screen.mk p.2 p.1 c) (xs.enumFrom n) g).map
        Screen.screen_id = List.range' n xs.length ∧
    (List.zipWith (fun (p : Nat × Workspace) c => Screen.mk p.2 p.1 c) (xs.enumFrom n) g).map
        Screen.screen_detail = g
  | [], [], n, _ => by simp
  | [], r :: g, n, h => by simp at h
  | x :: xs, [], n, h => by simp at h
  | x :: xs, r :: g, n, h => by
    have ih := zipWith_enumFrom_screens xs g (n + 1) (by simpa using h)
    refine ⟨?_, ?_, ?_⟩ <;>
      simp [List.enumFrom_cons, List.zipWith_cons_cons, List.range'_succ,
            ih.1, ih.2.1, ih.2.2]

/-! Claim theorems. -/

/-- C1: the claim states that after any engine operation at most one
window carries the focus border color and that it equals the resulting
current workspace's focused window.  The code violates this: from the
initial state, manage(1); manage(2) leaves window 2 highlighted, and
focus_down() then moves the model's focus to window 1 without issuing
any backend command (its embedding returns no trace at all), so window 2
still carries the focus border color while the focused window is 1. -/
theorem focus_down_stale_focus_color :
    lastBorderColor (c1t1 ++ c1t2) 2 = some cfg1.focus_border_color ∧
    lastBorderColor (c1t1 ++ c1t2) 1 = some cfg1.border_color ∧
    c1s3 = c1s2.focus_down ∧
    c1s3.workspaces.peek = some 1 ∧
    cfg1.border_color ≠ cfg1.focus_border_color := by
  refine ⟨rfl, rfl, rfl, rfl, by decide⟩

/-- C2: the claim states hidden holds exactly the workspaces not on any
screen, in particular after rescreen.  The code violates this: rescreen
only overwrites current and visible and never touches hidden, so after
rescreen from one monitor to two on tags 1, 2, 3, workspace 2 sits on a
visible screen while still listed in hidden. -/
theorem rescreen_leaves_hidden_stale :
    (wm0.rescreen [g0, g1]).map (fun s =>
      (s.workspaces.visible.map (fun sc => sc.workspace.tag),
       s.workspaces.hidden.map (fun w => w.tag))) = some (["2"], ["2", "3"]) := rfl

/-- C3: for every state and every index at or beyond the workspace
count, move_window_to_workspace returns a state structurally equal to
its input (the spec-modelled shift leaves the model unchanged out of
range, and the src wrapper only rebuilds the same model). -/
theorem move_window_out_of_range_fixes_state (s : WindowManager) (config : Config)
    (i : Nat) (h : s.workspaces.number_workspaces ≤ i) :
    (s.move_window_to_workspace config i).1 = s := by
  simp only [WindowManager.move_window_to_workspace, WindowManager.windows,
    WindowManager.reapply_layout, WindowManager.modify_workspaces, Workspaces.shift,
    Nat.not_lt.mpr h, if_false]

theorem move_window_out_of_range_fixes_state_witness :
    wm0.workspaces.number_workspaces ≤ 3 ∧ (wm0.move_window_to_workspace cfg1 3).1 = wm0 :=
  ⟨by decide, move_window_out_of_range_fixes_state wm0 cfg1 3 (by decide)⟩

/-- C7: reapply_layout returns a state whose Workspace Model equals the
input's; only the emitted command list differs from a no-op. -/
theorem reapply_layout_fixes_model (s : WindowManager) (config : Config) :
    (s.reapply_layout config).1 = s := rfl

/-- C9: for every state and every index at or beyond the workspace
count, view returns a state structurally equal to its input and issues
no backend command. -/
theorem view_out_of_range_noop (s : WindowManager) (config : Config) (i : Nat)
    (h : s.workspaces.number_workspaces ≤ i) :
    (s.view config i).1 = s ∧ (s.view config i).2 = [] := by
  unfold WindowManager.view
  rw [if_neg (Nat.not_lt.mpr h)]
  exact ⟨rfl, rfl⟩

theorem view_out_of_range_noop_witness :
    wm0.workspaces.number_workspaces ≤ 3 ∧
      (wm0.view cfg1 3).1 = wm0 ∧ (wm0.view cfg1 3).2 = [] :=
  ⟨by decide, (view_out_of_range_noop wm0 cfg1 3 (by decide)).1,
    (view_out_of_range_noop wm0 cfg1 3 (by decide)).2⟩

/-- C10: rescreen succeeds exactly when the backend reports at least one
monitor: the priority list always contains the current workspace, so
with one or more reported geometries the zipped screen list is nonempty
and the head unwrap succeeds, while with zero monitors the unwrap hits
an empty list (embedded as the none result, modelling the panic). -/
theorem rescreen_succeeds_iff_monitor_reported (s : WindowManager)
    (screen_infos : List Rectangle) :
    (s.rescreen screen_infos).isSome = true ↔ screen_infos ≠ [] := by
  constructor
  · intro h
    rintro rfl
    simp [WindowManager.rescreen] at h
  · intro h
    rcases hsc : List.zipWith (fun (p : Nat × Workspace) c => Screen.mk p.2 p.1 c)
        (((s.workspaces.screens.map Screen.workspace ++ s.workspaces.hidden).take
          screen_infos.length).enumFrom 0) screen_infos with _ | ⟨hd, tl⟩
    · exfalso
      have hpos : 0 < screen_infos.length := List.length_pos.mpr h
      have hws : 0 < (s.workspaces.screens.map Screen.workspace ++ s.workspaces.hidden).length := by
        simp [Workspaces.screens]
      have hzip : 0 < (List.zipWith (fun (p : Nat × Workspace) c => Screen.mk p.2 p.1 c)
          (((s.workspaces.screens.map Screen.workspace ++ s.workspaces.hidden).take
            screen_infos.length).enumFrom 0) screen_infos).length := by
        rw [List.length_zipWith, List.enumFrom_length, List.length_take]
        exact lt_min (lt_min hpos hws) hpos
      rw [hsc] at hzip
      simp at hzip
    · simp [WindowManager.rescreen, hsc]

/-- C4: the claim states manage on an already-managed window is a no-op
on the window set and stack orders.  The code violates this: the
manage-hook runs unconditionally, so a hook that inserts window 99
changes the window set even though window 10 was already managed. -/
theorem manage_hook_breaks_idempotence :
    wm1.is_window_managed 10 = true ∧
    (wm1.manage 10 cfgBad).1.workspaces.contains 99 = true ∧
    wm1.workspaces.contains 99 = false := by
  refine ⟨by decide, by decide, by decide⟩

/-- C4 amended: when the configured manage-hook is the identity, manage
on an already-managed window returns the state unchanged, so the window
set and every workspace's stack order are those of the input. -/
theorem manage_already_managed_identity_hook (s : WindowManager) (config : Config)
    (w : Window) (hhook : config.manage_hook = fun ws _ => ws)
    (hm : s.is_window_managed w = true) :
    (s.manage w config).1 = s := by
  have hc : s.workspaces.contains w = true := hm
  simp only [WindowManager.manage, WindowManager.windows, WindowManager.reapply_layout,
    WindowManager.modify_workspaces, hhook, Workspaces.insert_up, hc, if_true]

theorem manage_already_managed_identity_hook_witness :
    cfg1.manage_hook = (fun ws _ => ws) ∧ wm1.is_window_managed 10 = true ∧
      (wm1.manage 10 cfg1).1 = wm1 :=
  ⟨rfl, by decide, manage_already_managed_identity_hook wm1 cfg1 10 rfl (by decide)⟩

/-- C5: the claim states manage issues a backend show command for the
new window before (independently of) the layout pass.  The code issues
no such command: the only shows come from the layout pass inside the
synchronization primitive, so when the manage-hook moves the new window
to a hidden workspace the trace holds no show for it at all — only the
hide issued for hidden-workspace windows. -/
theorem manage_issues_no_show_for_shifted_window :
    Cmd.show 5 ∉ (wm0.manage 5 cfgShift).2 ∧
    Cmd.hide 5 ∈ (wm0.manage 5 cfgShift).2 := by
  refine ⟨by decide, by decide⟩

/-- C5 amended: the new window's visibility comes only from the layout
pass of the synchronization primitive — with the identity manage-hook an
unmanaged window ends up in the current workspace's stack, so the trace
of manage holds a show command for it among the placement commands. -/
theorem manage_shows_window_in_layout_pass (s : WindowManager) (config : Config)
    (w : Window) (hhook : config.manage_hook = fun ws _ => ws)
    (hm : s.is_window_managed w = false) :
    Cmd.show w ∈ (s.manage w config).2 := by
  have hc : s.workspaces.contains w = false := hm
  have hins : s.workspaces.insert_up w = s.workspaces.modifyCurrentStack (stackInsertUp w) := by
    unfold Workspaces.insert_up
    rw [hc]
    simp
  obtain ⟨st, hst, hwst⟩ : ∃ st,
      (s.workspaces.modifyCurrentStack (stackInsertUp w)).current.workspace.stack = some st ∧
        w ∈ st.integrate := by
    cases hstack : s.workspaces.current.workspace.stack with
    | none =>
      exact ⟨⟨w, [], []⟩, by simp [Workspaces.modifyCurrentStack, stackInsertUp, hstack],
        by simp [Stack.integrate]⟩
    | some st0 =>
      exact ⟨⟨w, st0.up, st0.focus :: st0.down⟩,
        by simp [Workspaces.modifyCurrentStack, stackInsertUp, hstack],
        by simp [Stack.integrate]⟩
  have hshow : Cmd.show w ∈ screenCmds (s.workspaces.modifyCurrentStack (stackInsertUp w))
      config (s.workspaces.modifyCurrentStack (stackInsertUp w)).current := by
    unfold screenCmds
    refine List.mem_append_right _ ?_
    rw [hst]
    have hw' : w ∈ (LayoutManager.apply_layout
        (s.workspaces.modifyCurrentStack (stackInsertUp w)).current.workspace.layout
        (addTopInset (s.workspaces.modifyCurrentStack (stackInsertUp w)).current.screen_detail)
        (some st)).map Prod.fst := by
      rw [apply_layout_map_fst]
      exact hwst
    obtain ⟨p, hp, hpw⟩ := List.mem_map.mp hw'
    refine List.mem_bind.mpr ⟨p, hp, ?_⟩
    simp [placeCmds, hpw]
  have hbind : Cmd.show w ∈ (s.workspaces.modifyCurrentStack (stackInsertUp w)).screens.bind
      (screenCmds (s.workspaces.modifyCurrentStack (stackInsertUp w)) config) :=
    List.mem_bind.mpr ⟨_, List.mem_cons_self _ _, hshow⟩
  simp only [WindowManager.manage, WindowManager.windows, WindowManager.reapply_layout,
    WindowManager.modify_workspaces, hhook, hins]
  simp [List.mem_append, hbind]

theorem manage_shows_window_in_layout_pass_witness :
    cfg1.manage_hook = (fun ws _ => ws) ∧ wm0.is_window_managed 10 = false ∧
      Cmd.show 10 ∈ (wm0.manage 10 cfg1).2 :=
  ⟨rfl, by decide, manage_shows_window_in_layout_pass wm0 cfg1 10 rfl (by decide)⟩

/-- C6: the claim states rescreen with N monitors always yields one
current and N-1 visible screens.  The code violates this when more
monitors are reported than workspaces exist: the priority list is
exhausted first, so a single-workspace state rescreened onto two
monitors yields no visible screen at all instead of one. -/
theorem rescreen_more_monitors_than_workspaces :
    (wmOne.rescreen [g0, g1]).map (fun s => s.workspaces.visible.length) = some 0 ∧
      (0 : Nat) ≠ 2 - 1 :=
  ⟨rfl, by decide⟩

/-- The screen list rescreen zips together is nonempty whenever at least
one monitor geometry is reported. -/
theorem rescreen_zip_pos (s : WindowManager) (screen_infos : List Rectangle)
    (h : screen_infos ≠ []) :
    0 < (List.zipWith (fun (p : Nat × Workspace) c => Screen.mk p.2 p.1 c)
      (((s.workspaces.screens.map Screen.workspace ++ s.workspaces.hidden).take
        screen_infos.length).enumFrom 0) screen_infos).length := by
  have hpos : 0 < screen_infos.length := List.length_pos.mpr h
  have hws : 0 < (s.workspaces.screens.map Screen.workspace ++ s.workspaces.hidden).length := by
    simp [Workspaces.screens]
  rw [List.length_zipWith, List.enumFrom_length, List.length_take]
  exact lt_min (lt_min hpos hws) hpos

/-- C6 amended: when the backend reports at least one and at most
number_workspaces monitors, rescreen yields one current plus N-1 visible
screens whose workspaces are the first N entries of the priority list
(current, then visible, then hidden workspaces, in order), whose ids are
0..N-1 and whose geometries are the reported ones in order. -/
theorem rescreen_takes_first_n (s : WindowManager) (screen_infos : List Rectangle)
    (h1 : screen_infos ≠ [])
    (h2 : screen_infos.length ≤ s.workspaces.number_workspaces) :
    ∃ r, s.rescreen screen_infos = some r ∧
      (r.workspaces.current :: r.workspaces.visible).map Screen.workspace
        = s.workspaces.workspacesList.take screen_infos.length ∧
      (r.workspaces.current :: r.workspaces.visible).map Screen.screen_id
        = List.range screen_infos.length ∧
      (r.workspaces.current :: r.workspaces.visible).map Screen.screen_detail
        = screen_infos := by
  have h2' : screen_infos.length ≤
      (s.workspaces.screens.map Screen.workspace ++ s.workspaces.hidden).length := h2
  have hlen : ((s.workspaces.screens.map Screen.workspace ++ s.workspaces.hidden).take
      screen_infos.length).length = screen_infos.length := by
    rw [List.length_take]
    exact min_eq_left h2'
  obtain ⟨hmapw, hmapi, hmapd⟩ := zipWith_enumFrom_screens _ screen_infos 0 hlen
  rcases hsc : List.zipWith (fun (p : Nat × Workspace) c => Screen.mk p.2 p.1 c)
      (((s.workspaces.screens.map Screen.workspace ++ s.workspaces.hidden).take
        screen_infos.length).enumFrom 0) screen_infos with _ | ⟨hd, tl⟩
  · exfalso
    have hzip := rescreen_zip_pos s screen_infos h1
    rw [hsc] at hzip
    simp at hzip
  · rw [hsc] at hmapw hmapi hmapd
    refine ⟨⟨⟨hd, tl, s.workspaces.hidden⟩⟩, ?_, ?_, ?_, ?_⟩
    · simp [WindowManager.rescreen, WindowManager.modify_workspaces, hsc]
    · exact hmapw
    · rw [hmapi, hlen, List.range_eq_range']
    · exact hmapd

theorem rescreen_takes_first_n_witness :
    ([g0, g1] : List Rectangle) ≠ [] ∧
    ([g0, g1] : List Rectangle).length ≤ wm0.workspaces.number_workspaces ∧
    (∃ r, wm0.rescreen [g0, g1] = some r ∧
      (r.workspaces.current :: r.workspaces.visible).map Screen.workspace
        = wm0.workspaces.workspacesList.take ([g0, g1] : List Rectangle).length ∧
      (r.workspaces.current :: r.workspaces.visible).map Screen.screen_id
        = List.range ([g0, g1] : List Rectangle).length ∧
      (r.workspaces.current :: r.workspaces.visible).map Screen.screen_detail
        = [g0, g1]) :=
  ⟨by decide, by decide, rescreen_takes_first_n wm0 [g0, g1] (by decide) (by decide)⟩

/-- C8: for each displayed screen, reapply_layout hands the layout
engine the screen geometry with a 20-unit top inset reserved, and for
each placement (win, (x, y, w, h)) it issues, in order, show, resize to
(w - 2*border_width, h - 2*border_width), move to (x, y), set border
width, set normal border color. -/
theorem reapply_layout_placement_commands (s : WindowManager) (config : Config)
    (screen : Screen) (hs : screen ∈ s.workspaces.screens)
    (win : Window) (r : Rectangle)
    (hp : (win, r) ∈ LayoutManager.apply_layout screen.workspace.layout
        (addTopInset screen.screen_detail) screen.workspace.stack) :
    List.Sublist
      [Cmd.show win,
       Cmd.resize win (r.width - config.border_width * 2) (r.height - config.border_width * 2),
       Cmd.move win r.x r.y,
       Cmd.setBorderWidth win config.border_width,
       Cmd.setBorderColor win config.border_color]
      ((s.reapply_layout config).2) := by
  have h1 : List.Sublist (placeCmds config (win, r))
      ((LayoutManager.apply_layout screen.workspace.layout (addTopInset screen.screen_detail)
        screen.workspace.stack).bind (placeCmds config)) := bind_sublist_of_mem _ hp
  have h2 : List.Sublist (placeCmds config (win, r)) (screenCmds s.workspaces config screen) :=
    h1.trans (List.sublist_append_right _ _)
  have h3 : List.Sublist (screenCmds s.workspaces config screen)
      (s.workspaces.screens.bind (screenCmds s.workspaces config)) := bind_sublist_of_mem _ hs
  exact (h2.trans h3).trans
    ((List.sublist_append_left _ _).trans (List.sublist_append_left _ _))

theorem reapply_layout_placement_commands_witness :
    List.Sublist
      [Cmd.show 10, Cmd.resize 10 796 576, Cmd.move 10 0 20,
       Cmd.setBorderWidth 10 2, Cmd.setBorderColor 10 0]
      ((wm1.reapply_layout cfg1).2) :=
  reapply_layout_placement_commands wm1 cfg1 wm1.workspaces.current (by decide) 10
    ⟨0, 20, 800, 580⟩ (by decide)
